import Mathlib

/-!
Verification model of the AI-Powered-Personal-Finance-Assistant repository.

The Python sources are embedded shallowly:
* a small backtracking regular-expression engine models Python's `re`
  module for exactly the constructs the repository's patterns use
  (literals, classes, greedy/lazy counted repetition, one capturing
  group, alternation, `$`, `\b`, IGNORECASE);
* `src/parsers/sms_parser.py` and `src/parsers/receipt_parser.py`
  become pure functions over those patterns;
* the SQLAlchemy rows become Lean structures, the database session a
  record of lists, and each route/service method a state-passing
  function;
* Python `float` values arising from parsing decimal strings are
  modelled as exact rationals, and `datetime` values as a calendar
  record compared chronologically.
-/

/-- Character-class item of a regular expression: a literal character,
a character range, or one of the shorthand classes `\d`, `\s`, `\w`. -/
inductive CItem where
  | ch (c : Char)
  | range (lo hi : Char)
  | digit
  | space
  | word
deriving DecidableEq, Repr

/-- Regular-expression abstract syntax covering the constructs used by the
repository's patterns.  `rep r lo hi lz` is `r{lo,hi}` (`hi = none` for
unbounded), lazy when `lz` is true; `group` is the single capturing group;
`endAnchor` is `$` (no MULTILINE); `wordBoundary` is `\b`. -/
inductive Re where
  | eps
  | ch (c : Char)
  | cls (items : List CItem)
  | seq (a b : Re)
  | alt (a b : Re)
  | rep (r : Re) (lo : Nat) (hi : Option Nat) (lz : Bool)
  | group (r : Re)
  | endAnchor
  | wordBoundary
deriving DecidableEq, Repr

/-- `\d` of Python `re` restricted to ASCII (all texts involved are ASCII
digits). -/
def isDigitCh (c : Char) : Bool := '0' ≤ c && c ≤ '9'

/-- `\s` of Python `re` restricted to ASCII. -/
def isSpaceCh (c : Char) : Bool :=
  c = ' ' || c = '\t' || c = '\n' || c = '\r' || c = '\x0b' || c = '\x0c'

/-- `\w` of Python `re` restricted to ASCII. -/
def isWordCh (c : Char) : Bool :=
  isDigitCh c || ('a' ≤ c && c ≤ 'z') || ('A' ≤ c && c ≤ 'Z') || c = '_'

/-- ASCII lower-casing, as used by `re.IGNORECASE` on the ASCII texts here. -/
def lowerCh (c : Char) : Char :=
  if 'A' ≤ c && c ≤ 'Z' then Char.ofNat (c.toNat + 32) else c

/-- ASCII upper-casing. -/
def upperCh (c : Char) : Char :=
  if 'a' ≤ c && c ≤ 'z' then Char.ofNat (c.toNat - 32) else c

/-- Character comparison, case-insensitive when `ic` is set. -/
def chEq (ic : Bool) (a b : Char) : Bool :=
  if ic then lowerCh a = lowerCh b else a = b

/-- Does character `c` match one class item (honouring IGNORECASE)? -/
def itemMatches (ic : Bool) (it : CItem) (c : Char) : Bool :=
  match it with
  | .ch x => chEq ic x c
  | .range lo hi =>
      (lo ≤ c && c ≤ hi) ||
      (ic && ((lo ≤ lowerCh c && lowerCh c ≤ hi) || (lo ≤ upperCh c && upperCh c ≤ hi)))
  | .digit => isDigitCh c
  | .space => isSpaceCh c
  | .word => isWordCh c

/-- Does character `c` match a character class? -/
def clsMatches (ic : Bool) (items : List CItem) (c : Char) : Bool :=
  items.any (fun it => itemMatches ic it c)

/-- Character at position `i` of the text, if any. -/
def charAt (t : List Char) (i : Nat) : Option Char :=
  (t.drop i).head?

/-- Backtracking matcher in continuation-passing style, mirroring Python's
`re` engine: alternation prefers the left branch, greedy repetition prefers
matching more, lazy repetition prefers matching less, and a repetition body
that matched the empty string is not iterated again.  The state threaded
through the continuation is the current position and the span of the (single)
capturing group.  `fuel` bounds the call depth and is chosen large enough for
every text (see `matchAt`). -/
def mrun : Nat → List Char → Bool → Re → Nat → Option (Nat × Nat) →
    (Nat → Option (Nat × Nat) → Option (Nat × Option (Nat × Nat))) →
    Option (Nat × Option (Nat × Nat))
  | 0, _, _, _, _, _, _ => none
  | Nat.succ fuel, t, ic, re, pos, grp, k =>
    match re with
    | .eps => k pos grp
    | .ch c =>
      match charAt t pos with
      | some c2 => if chEq ic c c2 then k (pos + 1) grp else none
      | none => none
    | .cls items =>
      match charAt t pos with
      | some c2 => if clsMatches ic items c2 then k (pos + 1) grp else none
      | none => none
    | .seq a b =>
      mrun fuel t ic a pos grp (fun p g => mrun fuel t ic b p g k)
    | .alt a b =>
      match mrun fuel t ic a pos grp k with
      | some res => some res
      | none => mrun fuel t ic b pos grp k
    | .rep r lo hi lz =>
      match lo with
      | Nat.succ lo' =>
        mrun fuel t ic r pos grp
          (fun p g => mrun fuel t ic (.rep r lo' (hi.map (fun h => h - 1)) lz) p g k)
      | 0 =>
        match hi with
        | some 0 => k pos grp
        | _ =>
          if lz then
            match k pos grp with
            | some res => some res
            | none =>
              mrun fuel t ic r pos grp (fun p g =>
                if p = pos then none
                else mrun fuel t ic (.rep r 0 (hi.map (fun h => h - 1)) lz) p g k)
          else
            match mrun fuel t ic r pos grp (fun p g =>
                if p = pos then none
                else mrun fuel t ic (.rep r 0 (hi.map (fun h => h - 1)) lz) p g k) with
            | some res => some res
            | none => k pos grp
    | .group r =>
      mrun fuel t ic r pos grp (fun p _ => k p (some (pos, p)))
    | .endAnchor =>
      if pos = t.length || (pos + 1 = t.length && charAt t pos = some '\n') then
        k pos grp
      else none
    | .wordBoundary =>
      let before :=
        match pos with
        | 0 => false
        | Nat.succ p => match charAt t p with | some c => isWordCh c | none => false
      let after := match charAt t pos with | some c => isWordCh c | none => false
      if before != after then k pos grp else none

/-- Structural size of a regular expression, used to compute the fuel. -/
def reSize : Re → Nat
  | .eps => 1
  | .ch _ => 1
  | .cls _ => 1
  | .seq a b => reSize a + reSize b + 1
  | .alt a b => reSize a + reSize b + 1
  | .rep r _ hi _ => (reSize r + 1) * (hi.getD 1 + 2)
  | .group r => reSize r + 1
  | .endAnchor => 1
  | .wordBoundary => 1

/-- Try to match `re` anchored at position `pos` (Python `re.match` when
`pos = 0`); returns the end position and the group span on success. -/
def matchAt (t : List Char) (ic : Bool) (re : Re) (pos : Nat) :
    Option (Nat × Option (Nat × Nat)) :=
  mrun ((t.length + 2) * (reSize re + 2) * 2 + 64) t ic re pos none
    (fun p g => some (p, g))

/-- Scan start positions `pos, pos+1, …` and return the leftmost match
(`re.search` semantics): start, end, and group span. -/
def searchFrom : Nat → List Char → Bool → Re → Nat →
    Option (Nat × Nat × Option (Nat × Nat))
  | 0, _, _, _, _ => none
  | Nat.succ n, t, ic, re, pos =>
    match matchAt t ic re pos with
    | some (e, g) => some (pos, e, g)
    | none => searchFrom n t ic re (pos + 1)

/-- Python `re.search`: leftmost match of `re` in `t`. -/
def reSearch (ic : Bool) (re : Re) (t : List Char) :
    Option (Nat × Nat × Option (Nat × Nat)) :=
  searchFrom (t.length + 1) t ic re 0

/-- The substring of `t` between positions `a` and `b`. -/
def sliceStr (t : List Char) (a b : Nat) : String :=
  String.mk ((t.drop a).take (b - a))

/-- `re.search` followed by `.group(1)`.  Every pattern in the repository
has its single capturing group in a mandatory position, so a successful
search always carries a group span; a span-less success is mapped to `""`. -/
def searchGroup (ic : Bool) (re : Re) (t : List Char) : Option String :=
  match reSearch ic re t with
  | some (_, _, some (a, b)) => some (sliceStr t a b)
  | some (_, _, none) => some ""
  | none => none

/-- First pattern of the list that matches the text wins; its group-1 text
is returned (the per-field loops of `SMSParser.parse_sms`). -/
def firstGroup (ic : Bool) : List Re → List Char → Option String
  | [], _ => none
  | p :: ps, t =>
    match searchGroup ic p t with
    | some g => some g
    | none => firstGroup ic ps t

/-- Worker for `findAll`: repeated leftmost search, resuming after each
match (advancing one position past an empty match, which cannot occur for
the patterns used). -/
def findAllFrom : Nat → List Char → Bool → Re → Nat → List String
  | 0, _, _, _, _ => []
  | Nat.succ n, t, ic, re, pos =>
    match searchFrom (t.length + 1 - pos) t ic re pos with
    | some (s, e, g) =>
      (match g with | some (a, b) => sliceStr t a b | none => "") ::
        findAllFrom n t ic re (if e = s then e + 1 else e)
    | none => []

/-- Python `re.findall` on a pattern with one capturing group: the list of
group-1 texts of all non-overlapping matches, left to right. -/
def findAll (ic : Bool) (re : Re) (t : List Char) : List String :=
  findAllFrom (t.length + 1) t ic re 0

/-- Concatenation of a list of regular expressions. -/
def rcat : List Re → Re
  | [] => .eps
  | [r] => r
  | r :: rs => .seq r (rcat rs)

/-- Literal string as a regular expression. -/
def rlit (s : String) : Re := rcat (s.data.map .ch)

/-- Alternation of a non-empty list of regular expressions (left biased). -/
def ralts : List Re → Re
  | [] => .eps
  | [r] => r
  | r :: rs => .alt r (ralts rs)

/-- `r*` (greedy). -/
def rstar (r : Re) : Re := .rep r 0 none false

/-- `r+` (greedy). -/
def rplus (r : Re) : Re := .rep r 1 none false

/-- `r?` (greedy). -/
def ropt (r : Re) : Re := .rep r 0 (some 1) false

/-- `\d`. -/
def rdigit : Re := .cls [.digit]

/-- `\s`. -/
def rspace : Re := .cls [.space]

/-- `\w`. -/
def rword : Re := .cls [.word]

/-- `([\d,]+\.?\d*)` — the amount capturing group shared by the parsers. -/
def amountGroupRe : Re :=
  .group (rcat [rplus (.cls [.digit, .ch ',']), ropt (.ch '.'), rstar rdigit])

/-- `self.patterns['amount']` of `SMSParser`, in source order. -/
def smsAmountPatterns : List Re :=
  [ rcat [rlit "INR", rstar rspace, amountGroupRe],
    rcat [rlit "Rs", ropt (.ch '.'), rstar rspace, amountGroupRe],
    rcat [rlit "for", rstar rspace, rlit "Rs", ropt (.ch '.'), rstar rspace, amountGroupRe],
    rcat [rlit "amount", rstar rspace, rlit "of", rstar rspace, rlit "Rs", ropt (.ch '.'),
      rstar rspace, amountGroupRe] ]

/-- `[A-Za-z0-9\s&\-\.]` — the merchant-name character class. -/
def merchantCls : Re :=
  .cls [.range 'A' 'Z', .range 'a' 'z', .range '0' '9', .space, .ch '&', .ch '-', .ch '.']

/-- `self.patterns['merchant']` of `SMSParser`, in source order. -/
def smsMerchantPatterns : List Re :=
  [ rcat [rlit "at", rplus rspace, .group (.rep merchantCls 1 none true),
      ralts [rcat [rplus rspace, rlit "on"], rcat [rplus rspace, rlit "Avl"],
        rcat [rplus rspace, .ch '.'], .endAnchor]],
    rcat [rlit "to", rplus rspace, .group (.rep merchantCls 1 none true),
      ralts [rcat [rplus rspace, rlit "on"], rcat [rplus rspace, rlit "from"],
        rcat [rplus rspace, .ch '.'], .endAnchor]],
    rcat [rlit "from", rplus rspace, .group (.rep merchantCls 1 none true),
      ralts [rcat [rplus rspace, rlit "on"], rcat [rplus rspace, rlit "Bal"],
        rcat [rplus rspace, .ch '.'], .endAnchor]],
    rcat [rlit "for", rplus rspace, rlit "payment", rplus rspace, rlit "at", rplus rspace,
      .group (.rep merchantCls 1 none false)],
    rcat [rlit "withdrawn", rplus rspace, rlit "from", rplus rspace, rlit "ATM", rplus rspace,
      rlit "at", rplus rspace, .group (.rep merchantCls 1 none false)] ]

/-- `(\d{4})`. -/
def fourDigitsGroup : Re := .group (.rep rdigit 4 (some 4) false)

/-- `self.patterns['card_last_digits']` of `SMSParser`, in source order. -/
def smsCardPatterns : List Re :=
  [ rcat [rlit "card", rstar rspace, rlit "ending", rstar rspace, fourDigitsGroup],
    rcat [rlit "card", rstar rspace, rplus (.ch '*'), fourDigitsGroup],
    rcat [rlit "Card", rplus rspace, rlit "XX", fourDigitsGroup],
    rcat [rlit "a/c", rstar rspace, rlit "XX", fourDigitsGroup] ]

/-- `self.patterns['date']` of `SMSParser`, in source order. -/
def smsDatePatterns : List Re :=
  [ .group (rcat [.rep rdigit 1 (some 2) false, .cls [.ch '-', .ch '/'],
      .rep rdigit 1 (some 2) false, .cls [.ch '-', .ch '/'], .rep rdigit 2 (some 4) false]),
    .group (rcat [.rep rdigit 1 (some 2) false, rplus rspace, rplus rword, rplus rspace,
      .rep rdigit 2 (some 4) false]),
    rcat [rlit "on", rplus rspace, .group (rcat [.rep rdigit 1 (some 2) false, .ch '-',
      .rep rdigit 1 (some 2) false, .ch '-', .rep rdigit 4 (some 4) false])] ]

/-- `self.currency_patterns` of `SMSParser`, in source (dict) order. -/
def smsCurrencyPatterns : List (String × List Re) :=
  [ ("USD", [rcat [.ch '$', rstar rspace, amountGroupRe],
             rcat [rlit "USD", rstar rspace, amountGroupRe]]),
    ("EUR", [rcat [.ch '€', rstar rspace, amountGroupRe],
             rcat [rlit "EUR", rstar rspace, amountGroupRe]]),
    ("GBP", [rcat [.ch '£', rstar rspace, amountGroupRe],
             rcat [rlit "GBP", rstar rspace, amountGroupRe]]),
    ("AED", [rcat [rlit "AED", rstar rspace, amountGroupRe],
             rcat [.ch 'D', .ch 'h', ropt (.ch 's'), rstar rspace, amountGroupRe]]),
    ("INR", [rcat [.ch '₹', rstar rspace, amountGroupRe],
             rcat [rlit "Rs", ropt (.ch '.'), rstar rspace, amountGroupRe],
             rcat [rlit "INR", rstar rspace, amountGroupRe]]) ]

/-- `'debit'` / `'credit'` keyword lists of `self.patterns['type']`. -/
def smsTypeKeywords : List (String × List String) :=
  [ ("debit", ["debited", "withdrawn", "paid", "spent", "purchase", "debit", "withdrawn from"]),
    ("credit", ["credited", "received", "deposited", "refund", "credit", "salary"]) ]

/-- `s.replace(',', '')`. -/
def stripCommas (s : String) : String := String.mk (s.data.filter (fun c => c ≠ ','))

/-- Numeric value of a digit list. -/
def digitsVal (l : List Char) : Nat :=
  l.foldl (fun acc c => acc * 10 + (c.toNat - 48)) 0

/-- Model of Python `float(s)` on the strings produced by the amount
patterns after comma removal: digits with at most one decimal point.  The
value is kept exact as a rational; `none` models the `ValueError` raised on
an empty or digit-free string. -/
def pyFloat (s : String) : Option ℚ :=
  let cs := s.data
  if cs.isEmpty then none
  else if !(cs.all fun c => isDigitCh c || c = '.') then none
  else
    match (cs.filter (fun c => c = '.')).length with
    | 0 => some (digitsVal cs)
    | 1 =>
      let ip := cs.takeWhile (fun c => c ≠ '.')
      let fp := (cs.dropWhile (fun c => c ≠ '.')).drop 1
      if ip.isEmpty && fp.isEmpty then none
      else some ((digitsVal ip : ℚ) + (digitsVal fp : ℚ) / ((10 : ℚ) ^ fp.length))
    | _ => none

/-- Python `str.strip()` restricted to ASCII whitespace. -/
def pyStrip (s : String) : String :=
  String.mk (((s.data.dropWhile isSpaceCh).reverse.dropWhile isSpaceCh).reverse)

/-- Python `str.lower()` restricted to ASCII. -/
def pyLower (s : String) : String := String.mk (s.data.map lowerCh)

/-- Worker for `containsSub`: does `hay` start with `need`? -/
def startsWithList : List Char → List Char → Bool
  | _, [] => true
  | [], _ :: _ => false
  | h :: hs, n :: ns => h = n && startsWithList hs ns

/-- Worker for `containsSub`: scan for `need` at each position of `hay`. -/
def containsSubList : List Char → List Char → Bool
  | hay, need =>
    if startsWithList hay need then true
    else
      match hay with
      | [] => false
      | _ :: hs => containsSubList hs need

/-- Python `needle in haystack` on strings (substring test). -/
def containsSub (haystack needle : String) : Bool :=
  containsSubList haystack.data needle.data

/-- Leap-year rule of the Gregorian calendar (Python `calendar.isleap`). -/
def isLeapYear (y : Nat) : Bool := y % 4 = 0 && (y % 100 ≠ 0 || y % 400 = 0)

/-- Number of days of month `m` (1–12) of year `y`. -/
def daysInMonth (y m : Nat) : Nat :=
  match m with
  | 1 => 31 | 2 => if isLeapYear y then 29 else 28 | 3 => 31 | 4 => 30
  | 5 => 31 | 6 => 30 | 7 => 31 | 8 => 31 | 9 => 30 | 10 => 31 | 11 => 30 | _ => 31

/-- A Python `datetime` value (microseconds are never compared by the
modelled code and are dropped). -/
structure PyDateTime where
  year : Nat
  month : Nat
  day : Nat
  hour : Nat
  minute : Nat
  second : Nat
deriving DecidableEq, Repr

/-- Days of year `y` before month `m`. -/
def cumDays (y m : Nat) : Nat :=
  ((List.range (m - 1)).map (fun i => daysInMonth y (i + 1))).foldl (· + ·) 0

/-- Day number of a date with `0001-01-01 ↦ 0` (proleptic Gregorian). -/
def rataDie (t : PyDateTime) : Nat :=
  (t.year - 1) * 365 + ((t.year - 1) / 4 - (t.year - 1) / 100 + (t.year - 1) / 400) +
    cumDays t.year t.month + (t.day - 1)

/-- Python `datetime.weekday()`: Monday = 0 (0001-01-01 was a Monday). -/
def weekdayOf (t : PyDateTime) : Nat := rataDie t % 7

/-- Seconds since `0001-01-01 00:00:00`; `datetime` comparison and
subtraction are modelled through this value (exact for valid datetimes). -/
def dtAbsSeconds (t : PyDateTime) : Nat :=
  rataDie t * 86400 + t.hour * 3600 + t.minute * 60 + t.second

/-- `a <= b` on datetimes (chronological order). -/
def dtLe (a b : PyDateTime) : Bool := dtAbsSeconds a ≤ dtAbsSeconds b

/-- Add one day to a date (rolling over months and years). -/
def addDayOnce (t : PyDateTime) : PyDateTime :=
  if t.day < daysInMonth t.year t.month then { t with day := t.day + 1 }
  else if t.month < 12 then { t with month := t.month + 1, day := 1 }
  else { t with year := t.year + 1, month := 1, day := 1 }

/-- `t + timedelta(days := n)` (time of day unchanged). -/
def addDays : PyDateTime → Nat → PyDateTime
  | t, 0 => t
  | t, Nat.succ n => addDays (addDayOnce t) n

/-- Subtract one day from a date. -/
def subDayOnce (t : PyDateTime) : PyDateTime :=
  if 1 < t.day then { t with day := t.day - 1 }
  else if 1 < t.month then { t with month := t.month - 1, day := daysInMonth t.year (t.month - 1) }
  else { t with year := t.year - 1, month := 12, day := 31 }

/-- `t - timedelta(days := n)` (time of day unchanged). -/
def subDays : PyDateTime → Nat → PyDateTime
  | t, 0 => t
  | t, Nat.succ n => subDays (subDayOnce t) n

/-- A `strptime` format directive: `%d`, `%m`, `%Y`, `%y`, `%B`, `%b`, or a
literal character of the format string. -/
inductive FmtTok where
  | d | m | Y | y | B | b
  | lit (c : Char)
deriving DecidableEq, Repr

/-- Abbreviated month names tried by `%b` (matched case-insensitively). -/
def monthAbbrevNames : List (Nat × String) :=
  [(1, "jan"), (2, "feb"), (3, "mar"), (4, "apr"), (5, "may"), (6, "jun"),
   (7, "jul"), (8, "aug"), (9, "sep"), (10, "oct"), (11, "nov"), (12, "dec")]

/-- Full month names tried by `%B`, longest first, as CPython's `_strptime`
orders its alternation (matched case-insensitively). -/
def monthFullNames : List (Nat × String) :=
  [(9, "september"), (2, "february"), (11, "november"), (12, "december"),
   (1, "january"), (10, "october"), (8, "august"), (3, "march"),
   (4, "april"), (6, "june"), (7, "july"), (5, "may")]

/-- Consume `name` (case-insensitively) from the head of `cs`. -/
def eatNameCI : List Char → List Char → Option (List Char)
  | cs, [] => some cs
  | [], _ :: _ => none
  | c :: cs, n :: ns => if lowerCh c = lowerCh n then eatNameCI cs ns else none

/-- Year, month and day assignments collected while running a format. -/
structure StrpAcc where
  yearv : Option Nat
  monthv : Option Nat
  dayv : Option Nat
deriving DecidableEq, Repr

/-- Run a `strptime` format against the input, CPython style: `%d`/`%m`
prefer a valid two-digit read and fall back to one digit, `%Y` reads exactly
four digits, `%y` exactly two (≤ 68 mapping to 20xx, otherwise 19xx),
`%B`/`%b` read a month name, and literals match case-insensitively.  The
whole input must be consumed. -/
def runFmt : List FmtTok → List Char → StrpAcc → Option StrpAcc
  | [], [], acc => some acc
  | [], _ :: _, _ => none
  | .lit c :: rest, cs, acc =>
    match cs with
    | c2 :: cs' => if lowerCh c = lowerCh c2 then runFmt rest cs' acc else none
    | [] => none
  | .d :: rest, cs, acc =>
    (match cs with
     | a :: b :: cs' =>
       if isDigitCh a && isDigitCh b then
         let v := (a.toNat - 48) * 10 + (b.toNat - 48)
         if 1 ≤ v && v ≤ 31 then runFmt rest cs' { acc with dayv := some v } else none
       else none
     | _ => none) <|>
    (match cs with
     | a :: cs' =>
       if isDigitCh a && a ≠ '0' then runFmt rest cs' { acc with dayv := some (a.toNat - 48) }
       else none
     | [] => none)
  | .m :: rest, cs, acc =>
    (match cs with
     | a :: b :: cs' =>
       if isDigitCh a && isDigitCh b then
         let v := (a.toNat - 48) * 10 + (b.toNat - 48)
         if 1 ≤ v && v ≤ 12 then runFmt rest cs' { acc with monthv := some v } else none
       else none
     | _ => none) <|>
    (match cs with
     | a :: cs' =>
       if isDigitCh a && a ≠ '0' then runFmt rest cs' { acc with monthv := some (a.toNat - 48) }
       else none
     | [] => none)
  | .Y :: rest, cs, acc =>
    (match cs with
     | a :: b :: c :: d :: cs' =>
       if isDigitCh a && isDigitCh b && isDigitCh c && isDigitCh d then
         runFmt rest cs' { acc with yearv := some (digitsVal [a, b, c, d]) }
       else none
     | _ => none)
  | .y :: rest, cs, acc =>
    (match cs with
     | a :: b :: cs' =>
       if isDigitCh a && isDigitCh b then
         let v := (a.toNat - 48) * 10 + (b.toNat - 48)
         runFmt rest cs' { acc with yearv := some (if v ≤ 68 then 2000 + v else 1900 + v) }
       else none
     | _ => none)
  | .B :: rest, cs, acc =>
    (monthFullNames.filterMap (fun mn =>
      (eatNameCI cs mn.2.data).bind (fun cs' =>
        runFmt rest cs' { acc with monthv := some mn.1 }))).head?
  | .b :: rest, cs, acc =>
    (monthAbbrevNames.filterMap (fun mn =>
      (eatNameCI cs mn.2.data).bind (fun cs' =>
        runFmt rest cs' { acc with monthv := some mn.1 }))).head?

/-- Left-pad a numeral to two digits. -/
def pad2 (n : Nat) : String := if n < 10 then "0" ++ toString n else toString n

/-- Left-pad a numeral to four digits. -/
def pad4 (n : Nat) : String :=
  if n < 10 then "000" ++ toString n
  else if n < 100 then "00" ++ toString n
  else if n < 1000 then "0" ++ toString n
  else toString n

/-- `datetime.strptime(s, fmt)` restricted to date directives, with the
constructor's validation (day within the month) and `strptime` defaults
(year 1900, month 1, day 1).  Returns the date. -/
def strpDate (fmt : List FmtTok) (s : String) : Option PyDateTime :=
  (runFmt fmt s.data ⟨none, none, none⟩).bind (fun acc =>
    let y := acc.yearv.getD 1900
    let mo := acc.monthv.getD 1
    let d := acc.dayv.getD 1
    if 1 ≤ y && y ≤ 9999 && 1 ≤ d && d ≤ daysInMonth y mo then
      some ⟨y, mo, d, 0, 0, 0⟩
    else none)

/-- `%Y-%m-%d` rendering of a date (`strftime('%Y-%m-%d')`). -/
def fmtYmd (t : PyDateTime) : String :=
  pad4 t.year ++ "-" ++ pad2 t.month ++ "-" ++ pad2 t.day

/-- The `date_formats` list of `SMSParser._parse_date`, in source order. -/
def smsDateFormats : List (List FmtTok) :=
  [ [.d, .lit '-', .m, .lit '-', .Y], [.d, .lit '/', .m, .lit '/', .Y],
    [.d, .lit '-', .m, .lit '-', .y], [.d, .lit '/', .m, .lit '/', .y],
    [.d, .lit ' ', .B, .lit ' ', .Y], [.d, .lit ' ', .b, .lit ' ', .Y],
    [.d, .lit ' ', .B, .lit ' ', .y], [.d, .lit ' ', .b, .lit ' ', .y],
    [.d, .lit '-', .b, .lit '-', .y], [.d, .lit '-', .B, .lit '-', .y],
    [.d, .lit '-', .b, .lit '-', .Y], [.d, .lit '-', .B, .lit '-', .Y],
    [.d, .lit '-', .lit 'D', .lit 'E', .lit 'C', .lit '-', .lit '2', .lit '3'],
    [.d, .lit '-', .lit 'J', .lit 'A', .lit 'N', .lit '-', .lit '2', .lit '3'],
    [.d, .lit '-', .lit 'F', .lit 'E', .lit 'B', .lit '-', .lit '2', .lit '3'] ]

/-- `\d{1,2}-[A-Z]{3}-\d{2}` — the DD-MMM-YY pre-check of `_parse_date`
(used with `re.match`, case-sensitively). -/
def ddMmmYyRe : Re :=
  rcat [.rep rdigit 1 (some 2) false, .ch '-', .rep (.cls [.range 'A' 'Z']) 3 (some 3) false,
    .ch '-', .rep rdigit 2 (some 2) false]

/-- Worker: first format of the list whose `strptime` succeeds. -/
def tryFormats : List (List FmtTok) → String → Option String
  | [], _ => none
  | fmt :: rest, s =>
    match strpDate fmt s with
    | some t => some (fmtYmd t)
    | none => tryFormats rest s

/-- `SMSParser._parse_date`: normalise a matched date string to
`YYYY-MM-DD`, or `None` when no format parses it. -/
def parseDateStr (s : String) : Option String :=
  if (matchAt s.data false ddMmmYyRe 0).isSome then
    match strpDate [.d, .lit '-', .b, .lit '-', .y] s with
    | some t => some (fmtYmd t)
    | none => tryFormats smsDateFormats s
  else tryFormats smsDateFormats s

/-- The dictionary returned by `SMSParser.parse_sms`. -/
structure SmsResult where
  amount : Option ℚ
  currency : String
  txType : Option String
  merchant : Option String
  card_last_digits : Option String
  date : Option String
  raw_text : String
deriving DecidableEq, Repr

/-- `SMSParser.extract_currency_and_amount`: first currency pattern (in
dict order) that matches wins; otherwise the plain amount patterns give an
INR amount; otherwise `(None, None)`.  The outer `Option` is the
`ValueError` of `float` on a digit-free match (which propagates out of the
parser). -/
def extractCurrencyAndAmount (t : String) :
    Option (Option String × Option ℚ) :=
  match (smsCurrencyPatterns.filterMap (fun cp =>
      (cp.2.filterMap (fun p => searchGroup true p t.data)).head?.map
        (fun g => (cp.1, g)))).head? with
  | some (cur, g) =>
    match pyFloat (stripCommas g) with
    | some v => some (some cur, some v)
    | none => none
  | none =>
    match firstGroup true smsAmountPatterns t.data with
    | some g =>
      match pyFloat (stripCommas g) with
      | some v => some (some "INR", some v)
      | none => none
    | none => some (none, none)

/-- Python truthiness of the optional amount (`None` and `0.0` are falsy). -/
def truthyAmount : Option ℚ → Bool
  | none => false
  | some v => v ≠ 0

/-- First transaction type (dict order: debit before credit) one of whose
keywords occurs in the lower-cased text. -/
def detectTxType (t : String) : Option String :=
  (smsTypeKeywords.filterMap (fun kw =>
    if kw.2.any (fun k => containsSub (pyLower t) k) then some kw.1 else none)).head?

/-- `SMSParser.parse_sms`.  `none` models the uncaught `ValueError` a
digit-free amount match raises inside the method. -/
def parseSms (t : String) : Option SmsResult :=
  match extractCurrencyAndAmount t with
  | none => none
  | some (cur, amt) =>
    let currency0 := if truthyAmount amt then cur.getD "INR" else "INR"
    let amount0 := if truthyAmount amt then amt else none
    match
      (match firstGroup true smsAmountPatterns t.data with
       | some g =>
         match pyFloat (stripCommas g) with
         | some v => some (some v)
         | none => none
       | none => some amount0 : Option (Option ℚ)) with
    | none => none
    | some amount1 =>
      some { amount := amount1
             currency := currency0
             txType := detectTxType t
             merchant := (firstGroup true smsMerchantPatterns t.data).map pyStrip
             card_last_digits := firstGroup true smsCardPatterns t.data
             date := (firstGroup false smsDatePatterns t.data).bind parseDateStr
             raw_text := t }

/-- `self.amount_patterns` of `ReceiptParser`, in source order. -/
def receiptAmountPatterns : List Re :=
  [ rcat [rlit "TOTAL", rplus (.cls [.space, .ch ':']),
      ropt (ralts [rcat [rlit "Rs", ropt (.ch '.')], .ch '₹']), rstar rspace, amountGroupRe],
    rcat [rlit "Grand", rstar rspace, rlit "Total", rplus (.cls [.space, .ch ':']),
      ropt (ralts [rcat [rlit "Rs", ropt (.ch '.')], .ch '₹']), rstar rspace, amountGroupRe],
    rcat [rlit "Amount", rplus (.cls [.space, .ch ':']),
      ropt (ralts [rcat [rlit "Rs", ropt (.ch '.')], .ch '₹']), rstar rspace, amountGroupRe],
    rcat [ralts [rcat [rlit "Rs", ropt (.ch '.')], .ch '₹'], rstar rspace, amountGroupRe],
    rcat [amountGroupRe, rstar rspace, ralts [rcat [rlit "Rs", ropt (.ch '.')], .ch '₹']],
    rcat [.wordBoundary, .group (rcat [.rep rdigit 1 (some 6) false,
      rstar (rcat [.ch ',', .rep rdigit 3 (some 3) false]),
      ropt (rcat [.ch '.', .rep rdigit 2 (some 2) false])]), .wordBoundary] ]

/-- The `amounts_found` list built by `ReceiptParser.extract_amount`: for
each pattern in order, every `findall` match whose comma-stripped text
parses as a float and lies in the range 10–100000 inclusive. -/
def receiptAmountsFound (text : String) : List ℚ :=
  receiptAmountPatterns.flatMap (fun p =>
    (findAll true p text.data).filterMap (fun g =>
      match pyFloat (stripCommas g) with
      | some a => if 10 ≤ a && a ≤ 100000 then some a else none
      | none => none))

/-- `ReceiptParser.extract_amount`: the largest collected amount, or `None`
when nothing was collected. -/
def extract_amount (text : String) : Option ℚ :=
  (receiptAmountsFound text).max?

/-- The in-memory state of `CurrencyService`: the per-base cached rate
dictionaries and the last update instant (absolute seconds). -/
structure CurrencyState where
  exchange_rates : List (String × List (String × ℚ))
  last_update : Option Nat
deriving DecidableEq, Repr

/-- Fresh `CurrencyService` state (`__init__`). -/
def initCurrencyState : CurrencyState := ⟨[], none⟩

/-- Python `dict.get` on an association list. -/
def dictGet (l : List (String × ℚ)) (k : String) : Option ℚ :=
  (l.find? (fun p => p.1 == k)).map (fun p => p.2)

/-- Python `dict.get(k, d)`. -/
def dictGetD (l : List (String × ℚ)) (k : String) (d : ℚ) : ℚ :=
  (dictGet l k).getD d

/-- `dict[k] = v` on an association list (replace in place or append). -/
def dictSet (l : List (String × List (String × ℚ))) (k : String)
    (v : List (String × ℚ)) : List (String × List (String × ℚ)) :=
  if l.any (fun p => p.1 == k) then
    l.map (fun p => if p.1 == k then (k, v) else p)
  else l ++ [(k, v)]

/-- Lookup of a cached rates dictionary. -/
def cacheGet (l : List (String × List (String × ℚ))) (k : String) :
    Option (List (String × ℚ)) :=
  (l.find? (fun p => p.1 == k)).map (fun p => p.2)

/-- The mock INR rate table of `get_exchange_rates` (the decimal literals
of the source written as exact fractions). -/
def ratesTableINR : List (String × ℚ) :=
  [("INR", 1), ("USD", 12/1000), ("EUR", 11/1000), ("GBP", 96/10000), ("AED", 44/1000),
   ("SGD", 16/1000), ("CAD", 16/1000), ("AUD", 18/1000), ("JPY", 175/100), ("CNY", 86/1000)]

/-- The mock USD rate table of `get_exchange_rates` (the decimal literals
of the source written as exact fractions). -/
def ratesTableUSD : List (String × ℚ) :=
  [("INR", 8312/100), ("USD", 1), ("EUR", 92/100), ("GBP", 79/100), ("AED", 367/100),
   ("SGD", 133/100), ("CAD", 136/100), ("AUD", 152/100), ("JPY", 14766/100), ("CNY", 716/100)]

/-- Has the cache been refreshed less than one hour before `now`? -/
def cacheFresh (s : CurrencyState) (now : Nat) : Bool :=
  match s.last_update with
  | some t => now - t < 3600
  | none => false

/-- `CurrencyService.get_exchange_rates` specialised to base `"INR"` (the
only base the recursive default branch ever calls itself with). -/
def getExchangeRatesINR (s : CurrencyState) (now : Nat) :
    List (String × ℚ) × CurrencyState :=
  match cacheGet s.exchange_rates "INR" with
  | some cached =>
    if cacheFresh s now then (cached, s)
    else (ratesTableINR, ⟨dictSet s.exchange_rates "INR" ratesTableINR, some now⟩)
  | none => (ratesTableINR, ⟨dictSet s.exchange_rates "INR" ratesTableINR, some now⟩)

/-- `CurrencyService.get_exchange_rates`: serve from the cache when it is
less than an hour old and holds the base currency; otherwise produce the
mock table (scaling the INR table for bases other than INR/USD via a
recursive call with base INR), store it, and stamp the update time. -/
def getExchangeRates (s : CurrencyState) (base : String) (now : Nat) :
    List (String × ℚ) × CurrencyState :=
  match (if cacheFresh s now then cacheGet s.exchange_rates base else none) with
  | some cached => (cached, s)
  | none =>
    let computed : List (String × ℚ) × CurrencyState :=
      if base = "INR" then (ratesTableINR, s)
      else if base = "USD" then (ratesTableUSD, s)
      else
        let inr := getExchangeRatesINR s now
        let inrToBase := 1 / dictGetD inr.1 base 1
        (inr.1.map (fun p => (p.1, p.2 * inrToBase)), inr.2)
    (computed.1, ⟨dictSet computed.2.exchange_rates base computed.1, some now⟩)

/-- `CurrencyService.convert_currency`. -/
def convert_currency (s : CurrencyState) (amount : ℚ) (fromCur toCur : String)
    (now : Nat) : ℚ × CurrencyState :=
  if fromCur = toCur then (amount, s)
  else
    let rs := getExchangeRates s fromCur now
    (amount * dictGetD rs.1 toCur 1, rs.2)

/-- `CurrencyService.convert_to_inr`. -/
def convert_to_inr (s : CurrencyState) (amount : ℚ) (fromCur : String)
    (now : Nat) : ℚ × CurrencyState :=
  convert_currency s amount fromCur "INR" now

/-- A row of the `transactions` table (`models.Transaction`). -/
structure Transaction where
  id : Nat
  user_id : Nat
  amount : ℚ
  currency : String
  amount_inr : ℚ
  exchange_rate : ℚ
  description : String
  category_id : Nat
  transaction_date : PyDateTime
  transaction_type : String
  source : String
  raw_text : Option String
  created_at : PyDateTime
deriving DecidableEq, Repr

/-- A row of the `categories` table (`models.Category`). -/
structure Category where
  id : Nat
  name : String
  user_id : Nat
  is_default : Bool
deriving DecidableEq, Repr

/-- A row of the `budgets` table (`models.Budget`). -/
structure Budget where
  id : Nat
  user_id : Nat
  category_id : Nat
  amount : ℚ
  period : String
  alert_threshold : ℚ
  is_active : Bool
  created_at : PyDateTime
  updated_at : PyDateTime
deriving DecidableEq, Repr

/-- A row of the `alerts` table (`models.Alert`). -/
structure Alert where
  id : Nat
  user_id : Nat
  alert_type : String
  title : String
  message : String
  is_read : Bool
  created_at : PyDateTime
deriving DecidableEq, Repr

/-- The relational state a database session sees: the four tables touched
by the modelled endpoints, plus the autoincrement counters.  Query results
without `order_by` are modelled in insertion order, as SQLite returns them. -/
structure Db where
  transactions : List Transaction
  categories : List Category
  budgets : List Budget
  alerts : List Alert
  nextTransactionId : Nat
  nextCategoryId : Nat
  nextBudgetId : Nat
  nextAlertId : Nat
deriving DecidableEq, Repr

/-- `BudgetService.get_budget_period_dates`: the (start, end) datetimes of
the current monthly, weekly or yearly period containing `now` (any other
period string falls into the yearly branch, as in the source). -/
def get_budget_period_dates (period : String) (now : PyDateTime) :
    PyDateTime × PyDateTime :=
  if period = "monthly" then
    let start := { now with day := 1, hour := 0, minute := 0, second := 0 }
    let nextMonth := addDays { start with day := 28 } 4
    (start, subDays nextMonth nextMonth.day)
  else if period = "weekly" then
    let start := { subDays now (weekdayOf now) with hour := 0, minute := 0, second := 0 }
    (start, { addDays start 6 with hour := 23, minute := 59, second := 59 })
  else
    ({ now with month := 1, day := 1, hour := 0, minute := 0, second := 0 },
     { now with month := 12, day := 31, hour := 23, minute := 59, second := 59 })

/-- The row filter of `get_spent_amount`: the user's expense transactions
in the category dated within `[start, stop]`. -/
def spentPred (user_id category_id : Nat) (start stop : PyDateTime)
    (t : Transaction) : Bool :=
  t.user_id == user_id && t.category_id == category_id &&
    t.transaction_type == "expense" &&
    dtLe start t.transaction_date && dtLe t.transaction_date stop

/-- `BudgetService.get_spent_amount`: the sum of the amounts of the user's
expense transactions in the category dated within `[start, stop]` (an empty
query sums to 0, as `scalar() or 0` does). -/
def get_spent_amount (db : Db) (user_id category_id : Nat)
    (start stop : PyDateTime) : ℚ :=
  ((db.transactions.filter (spentPred user_id category_id start stop)).map
    (fun t => t.amount)).sum

/-- The first active budget of the user for the category, if any. -/
def findActiveBudget (db : Db) (user_id category_id : Nat) : Option Budget :=
  db.budgets.find? (fun b =>
    b.user_id == user_id && b.category_id == category_id && b.is_active)

/-- `budget.category.name`: the name of the category row a budget points
to (the relationship lookup; every budget of interest has its category). -/
def categoryNameOf (db : Db) (category_id : Nat) : String :=
  ((db.categories.find? (fun c => c.id == category_id)).map (fun c => c.name)).getD ""

/-- Python `str.title()` restricted to the single-word status strings it is
applied to ("exceeded"/"warning"). -/
def titleWord (s : String) : String :=
  match s.data with
  | [] => ""
  | c :: cs => String.mk (upperCh c :: cs.map lowerCh)

/-- The deduplication predicate of `check_budget_alert`'s existing-alert
query: same user, type `budget_exceed`, created at or after the period
start, and title containing the category name. -/
def alertMatches (user_id : Nat) (start : PyDateTime) (catName : String)
    (a : Alert) : Bool :=
  a.user_id == user_id && a.alert_type == "budget_exceed" &&
    dtLe start a.created_at && containsSub a.title catName

/-- The f-string message of the created alert (numeric formatting is kept
symbolic: the exact rendering of the two floats is irrelevant to every
property proved here). -/
def budgetAlertMessage (spent percentage amount : ℚ) (period name : String) :
    String :=
  "You've spent ₹" ++ toString spent ++ " (" ++ toString percentage ++
    "%) of your ₹" ++ toString amount ++ " " ++ period ++ " budget for " ++ name ++ "."

/-- `BudgetService.check_budget_alert`: find the active budget, compare the
period spending percentage to the threshold, and insert one alert row
unless one matching `alertMatches` already exists.  Returns the created
alert (if any) and the updated database. -/
def check_budget_alert (db : Db) (user_id category_id : Nat)
    (now : PyDateTime) : Option Alert × Db :=
  match findActiveBudget db user_id category_id with
  | none => (none, db)
  | some budget =>
    let pd := get_budget_period_dates budget.period now
    let spent := get_spent_amount db user_id category_id pd.1 pd.2
    let percentage := if 0 < budget.amount then spent / budget.amount * 100 else 0
    if budget.alert_threshold * 100 ≤ percentage then
      let catName := categoryNameOf db budget.category_id
      match db.alerts.find? (alertMatches user_id pd.1 catName) with
      | some _ => (none, db)
      | none =>
        let status := if 100 ≤ percentage then "exceeded" else "warning"
        let alert : Alert :=
          { id := db.nextAlertId
            user_id := user_id
            alert_type := "budget_exceed"
            title := catName ++ " Budget " ++ titleWord status ++ "!"
            message := budgetAlertMessage spent percentage budget.amount budget.period catName
            is_read := false
            created_at := now }
        (some alert, { db with alerts := db.alerts ++ [alert], nextAlertId := db.nextAlertId + 1 })
    else (none, db)

/-- The `BudgetStatus` response schema. -/
structure BudgetStatus where
  budget_id : Nat
  category_name : String
  budget_amount : ℚ
  spent_amount : ℚ
  remaining_amount : ℚ
  percentage_used : ℚ
  days_left : Int
  status : String
deriving DecidableEq, Repr

/-- `(stop - now).days`: floor day count of a datetime difference. -/
def timedeltaDays (stop now : PyDateTime) : Int :=
  ((dtAbsSeconds stop : Int) - (dtAbsSeconds now : Int)).fdiv 86400

/-- `BudgetService.get_budget_status`: a read-only derivation of the budget
status from the period spending; the database is returned unchanged.  The
result is `none` when the budget id does not exist. -/
def get_budget_status (db : Db) (budget_id : Nat) (now : PyDateTime) :
    Option BudgetStatus × Db :=
  match db.budgets.find? (fun b => b.id == budget_id) with
  | none => (none, db)
  | some budget =>
    let pd := get_budget_period_dates budget.period now
    let spent := get_spent_amount db budget.user_id budget.category_id pd.1 pd.2
    let remaining := budget.amount - spent
    let percentage := if 0 < budget.amount then spent / budget.amount * 100 else 0
    let days_left := timedeltaDays pd.2 now + 1
    let status :=
      if 100 ≤ percentage then "exceeded"
      else if budget.alert_threshold * 100 ≤ percentage then "warning"
      else "safe"
    (some { budget_id := budget.id
            category_name := categoryNameOf db budget.category_id
            budget_amount := budget.amount
            spent_amount := spent
            remaining_amount := remaining
            percentage_used := percentage
            days_left := days_left
            status := status }, db)

/-- Combined application state seen by a request: the database plus the
module-level `currency_service` singleton of `routes.py`. -/
structure AppState where
  db : Db
  currency : CurrencyState
deriving DecidableEq, Repr

/-- The `TransactionCreate` request schema. -/
structure TransactionCreate where
  amount : ℚ
  currency : String
  description : String
  category_id : Nat
  transaction_date : PyDateTime
  transaction_type : String
  source : String
  raw_text : Option String
deriving DecidableEq, Repr

/-- The `BudgetCreate` request schema. -/
structure BudgetCreate where
  category_id : Nat
  amount : ℚ
  period : String
  alert_threshold : ℚ
deriving DecidableEq, Repr

/-- An `HTTPException` response: status code and detail string. -/
structure HttpError where
  status_code : Nat
  detail : String
deriving DecidableEq, Repr

/-- `POST /transactions/` (`create_transaction`): convert a non-INR amount
through the currency service, insert the row, then run the budget check for
expenses.  Returns the stored transaction. -/
def create_transaction (st : AppState) (user_id : Nat) (p : TransactionCreate)
    (now : PyDateTime) : Transaction × AppState :=
  let conv : ℚ × ℚ × CurrencyState :=
    if p.currency ≠ "INR" then
      let c1 := convert_to_inr st.currency p.amount p.currency (dtAbsSeconds now)
      let c2 := getExchangeRates c1.2 p.currency (dtAbsSeconds now)
      (c1.1, dictGetD c2.1 "INR" 1, c2.2)
    else (p.amount, 1, st.currency)
  let t : Transaction :=
    { id := st.db.nextTransactionId
      user_id := user_id
      amount := p.amount
      currency := p.currency
      amount_inr := conv.1
      exchange_rate := conv.2.1
      description := p.description
      category_id := p.category_id
      transaction_date := p.transaction_date
      transaction_type := p.transaction_type
      source := p.source
      raw_text := none
      created_at := now }
  let db1 := { st.db with
    transactions := st.db.transactions ++ [t]
    nextTransactionId := st.db.nextTransactionId + 1 }
  if p.transaction_type = "expense" then
    (t, { db := (check_budget_alert db1 user_id p.category_id now).2, currency := conv.2.2 })
  else
    (t, { db := db1, currency := conv.2.2 })

/-- `GET /transactions/` (`get_transactions`): the user's transactions with
`offset skip` and `limit`. -/
def get_transactions (st : AppState) (user_id skip limit : Nat) :
    List Transaction :=
  ((st.db.transactions.filter (fun t => t.user_id == user_id)).drop skip).take limit

/-- The "updateable row" helper: replace the first list element satisfying
the predicate (SQLAlchemy mutating a fetched row in place). -/
def updateFirst (p : α → Bool) (f : α → α) : List α → List α
  | [] => []
  | x :: xs => if p x then f x :: xs else x :: updateFirst p f xs

/-- `POST /budgets/` (`create_budget`): update the user's existing active
budget for the category in place, or insert a new one. -/
def create_budget (st : AppState) (user_id : Nat) (p : BudgetCreate)
    (now : PyDateTime) : Budget × AppState :=
  let isExisting := fun (b : Budget) =>
    b.user_id == user_id && b.category_id == p.category_id && b.is_active
  match st.db.budgets.find? isExisting with
  | some existing =>
    let updated := { existing with
      amount := p.amount
      period := p.period
      alert_threshold := p.alert_threshold
      updated_at := now }
    (updated,
     { st with db := { st.db with budgets := updateFirst isExisting (fun _ => updated) st.db.budgets } })
  | none =>
    let b : Budget :=
      { id := st.db.nextBudgetId
        user_id := user_id
        category_id := p.category_id
        amount := p.amount
        period := p.period
        alert_threshold := p.alert_threshold
        is_active := true
        created_at := now
        updated_at := now }
    (b, { st with db := { st.db with
            budgets := st.db.budgets ++ [b]
            nextBudgetId := st.db.nextBudgetId + 1 } })

/-- The category resolution of `parse_sms_transactions`: predicted name,
else the user's "Others" category, created on demand. -/
def findOrCreateCategory (db : Db) (user_id : Nat) (name : String) :
    Category × Db :=
  match db.categories.find? (fun c => c.name == name && c.user_id == user_id) with
  | some c => (c, db)
  | none =>
    match db.categories.find? (fun c => c.name == "Others" && c.user_id == user_id) with
    | some c => (c, db)
    | none =>
      let c : Category :=
        { id := db.nextCategoryId, name := "Others", user_id := user_id, is_default := true }
      (c, { db with
        categories := db.categories ++ [c]
        nextCategoryId := db.nextCategoryId + 1 })

/-- `datetime.strptime(s, '%Y-%m-%d')` as used by the SMS endpoint to read
back the normalised date. -/
def parseYmdDate (s : String) : Option PyDateTime :=
  strpDate [.Y, .lit '-', .m, .lit '-', .d] s

/-- The JSON body returned by `POST /transactions/parse-sms`. -/
structure SmsParseResponse where
  transaction_id : Nat
  parsed_data : SmsResult
  category : String
  confidence : ℚ
  budget_alert : Option String
deriving DecidableEq, Repr

/-- `POST /transactions/parse-sms` (`parse_sms_transactions`), stage by
stage in source order: parse the SMS (a parser exception becomes a 500),
reject a missing/zero amount with a 400, classify the description (the
naive-Bayes classifier is an opaque parameter `predict`), resolve the
category, read the date (falling back to `now`), convert the currency,
insert the transaction row, and only then run the budget check, which may
add an alert row. -/
def parse_sms_transactions (st : AppState) (user_id : Nat) (sms_text : String)
    (predict : String → String × ℚ) (now : PyDateTime) :
    Except HttpError SmsParseResponse × AppState :=
  match parseSms sms_text with
  | none => (.error ⟨500, "Internal error"⟩, st)
  | some parsed =>
    if !truthyAmount parsed.amount then
      (.error ⟨400, "Could not extract transaction amount from SMS"⟩, st)
    else
      let description :=
        match parsed.merchant with
        | some m => if m = "" then "Unknown Transaction" else m
        | none => "Unknown Transaction"
      let pc := predict description
      let fc := findOrCreateCategory st.db user_id pc.1
      let category := fc.1
      let db1 := fc.2
      let transaction_date :=
        match parsed.date with
        | some ds => (parseYmdDate ds).getD now
        | none => now
      let amount := parsed.amount.getD 0
      let conv : ℚ × ℚ × CurrencyState :=
        if parsed.currency ≠ "INR" then
          let c1 := convert_to_inr st.currency amount parsed.currency (dtAbsSeconds now)
          let c2 := getExchangeRates c1.2 parsed.currency (dtAbsSeconds now)
          (c1.1, dictGetD c2.1 "INR" 1, c2.2)
        else (amount, 1, st.currency)
      let t : Transaction :=
        { id := db1.nextTransactionId
          user_id := user_id
          amount := amount
          currency := parsed.currency
          amount_inr := conv.1
          exchange_rate := conv.2.1
          description := description
          category_id := category.id
          transaction_date := transaction_date
          transaction_type := if parsed.txType = some "debit" then "expense" else "income"
          source := "bank_sms"
          raw_text := some sms_text
          created_at := now }
      let db2 := { db1 with
        transactions := db1.transactions ++ [t]
        nextTransactionId := db1.nextTransactionId + 1 }
      let checked : Option Alert × Db :=
        if t.transaction_type = "expense" then
          check_budget_alert db2 user_id t.category_id now
        else (none, db2)
      (.ok { transaction_id := t.id
             parsed_data := parsed
             category := pc.1
             confidence := pc.2
             budget_alert := checked.1.map (fun a => a.title) },
       { db := checked.2, currency := conv.2.2 })

attribute [local semireducible] Rat.add Rat.mul Rat.inv Rat.sub

/-- Setting a key present in the cache and reading it back. -/
theorem cacheGet_map_set (l : List (String × List (String × ℚ))) (k : String)
    (v : List (String × ℚ)) (h : l.any (fun p => p.1 == k) = true) :
    cacheGet (l.map (fun p => if p.1 == k then (k, v) else p)) k = some v := by
  induction l with
  | nil => simp at h
  | cons p l ih =>
    by_cases hp : (p.1 == k) = true
    · simp [cacheGet, hp, List.find?]
    · rw [List.any_cons, Bool.or_eq_true] at h
      have h' : l.any (fun p => p.1 == k) = true := by
        rcases h with h | h
        · exact absurd h hp
        · exact h
      have hpf : (p.1 == k) = false := Bool.eq_false_iff.mpr hp
      simpa [cacheGet, hpf, List.find?] using ih h'

/-- Appending a key absent from the cache and reading it back. -/
theorem cacheGet_append_set (l : List (String × List (String × ℚ))) (k : String)
    (v : List (String × ℚ)) (h : l.any (fun p => p.1 == k) = false) :
    cacheGet (l ++ [(k, v)]) k = some v := by
  induction l with
  | nil => simp [cacheGet, List.find?]
  | cons p l ih =>
    rw [List.any_cons, Bool.or_eq_false_iff] at h
    simpa [cacheGet, h.1, List.find?] using ih h.2

/-- `dict[k] = v` followed by a lookup of `k` yields `v`. -/
theorem cacheGet_dictSet_self (l : List (String × List (String × ℚ))) (k : String)
    (v : List (String × ℚ)) : cacheGet (dictSet l k v) k = some v := by
  unfold dictSet
  by_cases h : l.any (fun p => p.1 == k)
  · simpa [h] using cacheGet_map_set l k v h
  · have h' : l.any (fun p => p.1 == k) = false := Bool.eq_false_iff.mpr h
    simpa [h'] using cacheGet_append_set l k v h'

/-- C9: `convert_currency` with equal source and target currency returns the
amount unchanged and leaves the service state untouched, and consequently
`convert_to_inr` of an INR amount is the identity. -/
theorem convert_currency_self_id (s : CurrencyState) (amount : ℚ) (c : String)
    (now : Nat) :
    convert_currency s amount c c now = (amount, s) ∧
    convert_to_inr s amount "INR" now = (amount, s) := by
  constructor
  · simp [convert_currency]
  · simp [convert_to_inr, convert_currency]

/-- C7: while the last update is less than one hour old and the cache holds
the base currency, `get_exchange_rates` returns the cached dictionary and
changes nothing; once an hour has elapsed, the next call recomputes, stores
the result under the base currency, and stamps the new update time. -/
theorem exchange_rates_cache_ttl (s : CurrencyState) (base : String)
    (now t : Nat) (hlast : s.last_update = some t) :
    (now - t < 3600 → ∀ r, cacheGet s.exchange_rates base = some r →
      getExchangeRates s base now = (r, s)) ∧
    (3600 ≤ now - t →
      (getExchangeRates s base now).2.last_update = some now ∧
      cacheGet (getExchangeRates s base now).2.exchange_rates base =
        some (getExchangeRates s base now).1) := by
  have hfresh : cacheFresh s now = decide (now - t < 3600) := by
    simp [cacheFresh, hlast]
  constructor
  · intro hlt r hr
    unfold getExchangeRates
    rw [hfresh]
    simp [hlt, hr]
  · intro hge
    have hf : cacheFresh s now = false := by
      rw [hfresh]
      simp only [decide_eq_false_iff_not]
      omega
    unfold getExchangeRates
    rw [hf]
    simp [cacheGet_dictSet_self]

/-- Witness for C7 at a concrete cache state: a call 1000 seconds after the
update is served from the cache; a call 4000 seconds after recomputes. -/
theorem exchange_rates_cache_ttl_witness :
    ((2000 : Nat) - 1000 < 3600 ∧
      getExchangeRates ⟨[("INR", ratesTableINR)], some 1000⟩ "INR" 2000 =
        (ratesTableINR, ⟨[("INR", ratesTableINR)], some 1000⟩)) ∧
    (3600 ≤ (5000 : Nat) - 1000 ∧
      (getExchangeRates ⟨[("INR", ratesTableINR)], some 1000⟩ "INR" 5000).2.last_update =
        some 5000 ∧
      cacheGet (getExchangeRates ⟨[("INR", ratesTableINR)], some 1000⟩ "INR" 5000).2.exchange_rates
          "INR" =
        some (getExchangeRates ⟨[("INR", ratesTableINR)], some 1000⟩ "INR" 5000).1) :=
  ⟨⟨by decide,
    (exchange_rates_cache_ttl ⟨[("INR", ratesTableINR)], some 1000⟩ "INR" 2000 1000 rfl).1
      (by decide) ratesTableINR (by decide)⟩,
   ⟨by decide,
    (exchange_rates_cache_ttl ⟨[("INR", ratesTableINR)], some 1000⟩ "INR" 5000 1000 rfl).2
      (by decide)⟩⟩

/-- Scaling a percentage comparison back to amounts. -/
theorem perc_le_iff (s a th : ℚ) (h : 0 < a) :
    th * 100 ≤ s / a * 100 ↔ th * a ≤ s := by
  rw [mul_le_mul_right (by norm_num : (0 : ℚ) < 100), le_div_iff₀ h]

/-- C4: `get_budget_status` writes nothing and derives the status purely
from the spent and budgeted amounts: `exceeded` when the spent amount
reaches the budget amount (percentage ≥ 100), `warning` when it reaches
`alert_threshold` times the budget amount but not the full amount, and
`safe` otherwise. -/
theorem budget_status_pure_derivation (db : Db) (bid : Nat) (now : PyDateTime)
    (b : Budget) (hfind : db.budgets.find? (fun x => x.id == bid) = some b)
    (hpos : 0 < b.amount) :
    (get_budget_status db bid now).2 = db ∧
    ∃ bs, (get_budget_status db bid now).1 = some bs ∧
      bs.status =
        (if b.amount ≤ get_spent_amount db b.user_id b.category_id
            (get_budget_period_dates b.period now).1 (get_budget_period_dates b.period now).2
         then "exceeded"
         else if b.alert_threshold * b.amount ≤ get_spent_amount db b.user_id b.category_id
            (get_budget_period_dates b.period now).1 (get_budget_period_dates b.period now).2
         then "warning"
         else "safe") := by
  unfold get_budget_status
  rw [hfind]
  refine ⟨rfl, ⟨_, rfl, ?_⟩⟩
  dsimp only
  rw [if_pos hpos]
  have h1 : (100 ≤ get_spent_amount db b.user_id b.category_id
      (get_budget_period_dates b.period now).1 (get_budget_period_dates b.period now).2 /
        b.amount * 100) ↔
      (b.amount ≤ get_spent_amount db b.user_id b.category_id
        (get_budget_period_dates b.period now).1 (get_budget_period_dates b.period now).2) := by
    simpa using perc_le_iff (get_spent_amount db b.user_id b.category_id
      (get_budget_period_dates b.period now).1 (get_budget_period_dates b.period now).2)
      b.amount 1 hpos
  have h2 := perc_le_iff (get_spent_amount db b.user_id b.category_id
    (get_budget_period_dates b.period now).1 (get_budget_period_dates b.period now).2)
    b.amount b.alert_threshold hpos
  simp only [h1, h2]

/-- A fixed reference instant used by the concrete witnesses (a Monday). -/
def now2026 : PyDateTime := ⟨2026, 10, 12, 10, 0, 0⟩

/-- A one-budget database used by the C4 witness. -/
def dbStatus : Db :=
  ⟨[⟨1, 1, 30, "INR", 30, 1, "lunch", 1, ⟨2026, 10, 5, 12, 0, 0⟩, "expense", "manual",
     none, now2026⟩],
   [⟨1, "Food", 1, false⟩],
   [⟨1, 1, 1, 100, "monthly", 4/5, true, now2026, now2026⟩],
   [], 2, 2, 2, 1⟩

/-- Witness for C4: on `dbStatus` the budget is found, its amount is
positive, and the derived status is reported without touching the
database. -/
theorem budget_status_pure_derivation_witness :
    dbStatus.budgets.find? (fun x => x.id == 1) =
      some ⟨1, 1, 1, 100, "monthly", 4/5, true, now2026, now2026⟩ ∧
    (0 : ℚ) < 100 ∧
    ((get_budget_status dbStatus 1 now2026).2 = dbStatus ∧
     ∃ bs, (get_budget_status dbStatus 1 now2026).1 = some bs ∧
       bs.status =
        (if (100 : ℚ) ≤ get_spent_amount dbStatus 1 1
            (get_budget_period_dates "monthly" now2026).1
            (get_budget_period_dates "monthly" now2026).2
         then "exceeded"
         else if (4/5 : ℚ) * 100 ≤ get_spent_amount dbStatus 1 1
            (get_budget_period_dates "monthly" now2026).1
            (get_budget_period_dates "monthly" now2026).2
         then "warning"
         else "safe")) :=
  ⟨by decide, by decide,
   budget_status_pure_derivation dbStatus 1 now2026
     ⟨1, 1, 1, 100, "monthly", 4/5, true, now2026, now2026⟩ (by decide) (by decide)⟩

/-- `check_budget_alert` only ever touches the alerts table: transactions,
budgets and categories are unchanged. -/
theorem check_budget_alert_shape (db : Db) (u c : Nat) (now : PyDateTime) :
    ((check_budget_alert db u c now).2).transactions = db.transactions ∧
    ((check_budget_alert db u c now).2).budgets = db.budgets ∧
    ((check_budget_alert db u c now).2).categories = db.categories := by
  unfold check_budget_alert
  rcases hb : findActiveBudget db u c with _ | b
  · exact ⟨rfl, rfl, rfl⟩
  · dsimp only
    split
    all_goals try split
    all_goals try split
    all_goals exact ⟨rfl, rfl, rfl⟩

/-- C3: a transaction stored by `create_transaction` appears in the result
of a subsequent `get_transactions` call with `skip = 0` and the default
`limit = 100`, provided the user had fewer than 100 transactions. -/
theorem create_transaction_listed (st : AppState) (uid : Nat)
    (p : TransactionCreate) (now : PyDateTime)
    (hcount : (st.db.transactions.filter (fun t => t.user_id == uid)).length < 100) :
    (create_transaction st uid p now).1 ∈
      get_transactions (create_transaction st uid p now).2 uid 0 100 := by
  have key : ∀ (t : Transaction) (l : List Transaction), t.user_id = uid →
      l = st.db.transactions ++ [t] →
      t ∈ ((l.filter (fun x => x.user_id == uid)).drop 0).take 100 := by
    intro t l htu hl
    subst hl
    rw [List.drop_zero, List.filter_append]
    have htu' : (t.user_id == uid) = true := by simp [htu]
    have hfil : List.filter (fun x => x.user_id == uid) [t] = [t] := by
      simp [List.filter, htu']
    rw [hfil]
    have hlen : ((st.db.transactions.filter (fun x => x.user_id == uid)) ++ [t]).length ≤ 100 := by
      rw [List.length_append]
      simp only [List.length_singleton]
      omega
    rw [List.take_of_length_le hlen]
    exact List.mem_append_right _ (List.mem_singleton.mpr rfl)
  unfold create_transaction get_transactions
  dsimp only
  split
  · exact key _ _ rfl (check_budget_alert_shape _ uid p.category_id now).1
  · exact key _ _ rfl rfl

/-- A small one-user state used by the C3 witness. -/
def stSmall : AppState :=
  ⟨⟨[], [⟨1, "Food", 1, false⟩], [], [], 1, 2, 1, 1⟩, initCurrencyState⟩

/-- A concrete INR expense payload used by the C3 witness. -/
def payloadSmall : TransactionCreate :=
  ⟨75, "INR", "lunch", 1, ⟨2026, 10, 11, 9, 0, 0⟩, "expense", "manual", none⟩

/-- Witness for C3: on the empty state the stored transaction is returned
by the subsequent list call. -/
theorem create_transaction_listed_witness :
    (stSmall.db.transactions.filter (fun t => t.user_id == 1)).length < 100 ∧
    (create_transaction stSmall 1 payloadSmall now2026).1 ∈
      get_transactions (create_transaction stSmall 1 payloadSmall now2026).2 1 0 100 :=
  ⟨by decide, create_transaction_listed stSmall 1 payloadSmall now2026 (by decide)⟩

/-- The in-place field rewrite `create_budget` applies to an existing row. -/
def updatedBudget (ex : Budget) (p : BudgetCreate) (now : PyDateTime) : Budget :=
  { ex with
    amount := p.amount
    period := p.period
    alert_threshold := p.alert_threshold
    updated_at := now }

/-- A successful `find?` splits the list around the first match, and
`updateFirst` rewrites exactly that element. -/
theorem updateFirst_of_find? {α : Type} (p : α → Bool) (f : α → α) :
    ∀ (l : List α) (x : α), l.find? p = some x →
      ∃ l₁ l₂, l = l₁ ++ x :: l₂ ∧ (∀ y ∈ l₁, p y = false) ∧
        updateFirst p f l = l₁ ++ f x :: l₂ := by
  intro l
  induction l with
  | nil => intro x h; simp [List.find?] at h
  | cons a l ih =>
    intro x h
    by_cases ha : p a = true
    · rw [List.find?_cons_of_pos _ ha] at h
      injection h with h
      subst h
      exact ⟨[], l, rfl, by simp, by simp [updateFirst, ha]⟩
    · have ha' : p a = false := Bool.eq_false_iff.mpr ha
      rw [List.find?_cons_of_neg _ ha] at h
      obtain ⟨l₁, l₂, hl, hl1, hu⟩ := ih x h
      refine ⟨a :: l₁, l₂, by rw [List.cons_append, hl], ?_, ?_⟩
      · intro y hy
        rcases List.mem_cons.mp hy with rfl | hy
        · exact ha'
        · exact hl1 y hy
      · simp [updateFirst, ha', hu]

/-- C8: when the user already has an active budget for the category,
`create_budget` updates that row in place (amount, period, threshold,
`updated_at`): the row count is unchanged, the row's identity fields
(`id`, `user_id`, `category_id`, `is_active`, `created_at`) are untouched,
every other budget row survives unchanged, and no row of any table is
deleted. -/
theorem create_budget_updates_in_place (st : AppState) (uid : Nat)
    (p : BudgetCreate) (now : PyDateTime) (ex : Budget)
    (hfind : st.db.budgets.find? (fun b =>
      b.user_id == uid && b.category_id == p.category_id && b.is_active) = some ex) :
    (create_budget st uid p now).2.db.budgets.length = st.db.budgets.length ∧
    (create_budget st uid p now).1.id = ex.id ∧
    (create_budget st uid p now).1.user_id = ex.user_id ∧
    (create_budget st uid p now).1.category_id = ex.category_id ∧
    (create_budget st uid p now).1.is_active = ex.is_active ∧
    (create_budget st uid p now).1.created_at = ex.created_at ∧
    (create_budget st uid p now).1.amount = p.amount ∧
    (create_budget st uid p now).1.period = p.period ∧
    (create_budget st uid p now).1.alert_threshold = p.alert_threshold ∧
    (create_budget st uid p now).1.updated_at = now ∧
    (create_budget st uid p now).1 ∈ (create_budget st uid p now).2.db.budgets ∧
    (∀ b ∈ st.db.budgets, b = ex ∨ b ∈ (create_budget st uid p now).2.db.budgets) ∧
    (create_budget st uid p now).2.db.transactions = st.db.transactions ∧
    (create_budget st uid p now).2.db.alerts = st.db.alerts ∧
    (create_budget st uid p now).2.db.categories = st.db.categories := by
  obtain ⟨l₁, l₂, hl, -, hu⟩ :=
    updateFirst_of_find?
      (fun b => b.user_id == uid && b.category_id == p.category_id && b.is_active)
      (fun _ => updatedBudget ex p now)
      st.db.budgets ex hfind
  have hbud : (create_budget st uid p now).2.db.budgets =
      l₁ ++ updatedBudget ex p now :: l₂ := by
    unfold create_budget
    dsimp only
    rw [hfind]
    exact hu
  have hret : (create_budget st uid p now).1 = updatedBudget ex p now := by
    unfold create_budget
    dsimp only
    rw [hfind]
    rfl
  have hshape : (create_budget st uid p now).2.db.transactions = st.db.transactions ∧
      (create_budget st uid p now).2.db.alerts = st.db.alerts ∧
      (create_budget st uid p now).2.db.categories = st.db.categories := by
    unfold create_budget
    dsimp only
    rw [hfind]
    exact ⟨rfl, rfl, rfl⟩
  refine ⟨?_, by rw [hret]; rfl, by rw [hret]; rfl, by rw [hret]; rfl, by rw [hret]; rfl,
    by rw [hret]; rfl, by rw [hret]; rfl, by rw [hret]; rfl, by rw [hret]; rfl,
    by rw [hret]; rfl, ?_, ?_, hshape.1, hshape.2.1, hshape.2.2⟩
  · rw [hbud, hl]
    simp
  · rw [hbud, hret]
    exact List.mem_append_right _ (List.mem_cons_self _ _)
  · intro b hb
    rw [hl] at hb
    rcases List.mem_append.mp hb with hb | hb
    · exact Or.inr (by rw [hbud]; exact List.mem_append_left _ hb)
    · rcases List.mem_cons.mp hb with rfl | hb
      · exact Or.inl rfl
      · exact Or.inr (by rw [hbud]; exact List.mem_append_right _ (List.mem_cons_of_mem _ hb))

/-- A state with one active budget, used by the C8 witness. -/
def stBudget : AppState :=
  ⟨⟨[], [⟨1, "Food", 1, false⟩],
    [⟨1, 1, 1, 100, "monthly", 4/5, true, now2026, now2026⟩], [], 1, 2, 2, 1⟩,
   initCurrencyState⟩

/-- Witness for C8: updating the budget of `stBudget` keeps one row and
rewrites it in place. -/
theorem create_budget_updates_in_place_witness :
    stBudget.db.budgets.find? (fun b =>
      b.user_id == 1 && b.category_id == 1 && b.is_active) =
      some ⟨1, 1, 1, 100, "monthly", 4/5, true, now2026, now2026⟩ ∧
    (create_budget stBudget 1 ⟨1, 250, "weekly", 9/10⟩ now2026).2.db.budgets.length =
      stBudget.db.budgets.length ∧
    (create_budget stBudget 1 ⟨1, 250, "weekly", 9/10⟩ now2026).1.id = 1 :=
  ⟨by decide,
   (create_budget_updates_in_place stBudget 1 ⟨1, 250, "weekly", 9/10⟩ now2026
     ⟨1, 1, 1, 100, "monthly", 4/5, true, now2026, now2026⟩ (by decide)).1,
   ((create_budget_updates_in_place stBudget 1 ⟨1, 250, "weekly", 9/10⟩ now2026
     ⟨1, 1, 1, 100, "monthly", 4/5, true, now2026, now2026⟩ (by decide)).2.1).trans rfl⟩

/-- The number of alerts the deduplication query of `check_budget_alert`
counts for the user's active budget in a category (0 without a budget). -/
def countBudgetAlerts (db : Db) (u c : Nat) (now : PyDateTime) : Nat :=
  match findActiveBudget db u c with
  | none => 0
  | some b =>
    db.alerts.countP (alertMatches u (get_budget_period_dates b.period now).1
      (categoryNameOf db b.category_id))

/-- `check_budget_alert` iterated `n` times for one user, category and
instant. -/
def iterCheckBudgetAlert (u c : Nat) (now : PyDateTime) : Nat → Db → Db
  | 0, db => db
  | Nat.succ n, db => iterCheckBudgetAlert u c now n ((check_budget_alert db u c now).2)

/-- One call either leaves the alerts table unchanged or, when the
deduplication query found nothing, appends exactly one row. -/
theorem check_budget_alert_alerts_cases (db : Db) (u c : Nat) (now : PyDateTime) :
    ((check_budget_alert db u c now).2).alerts = db.alerts ∨
    ∃ b a, findActiveBudget db u c = some b ∧
      db.alerts.find? (alertMatches u (get_budget_period_dates b.period now).1
        (categoryNameOf db b.category_id)) = none ∧
      ((check_budget_alert db u c now).2).alerts = db.alerts ++ [a] := by
  rcases hb : findActiveBudget db u c with _ | b
  · left
    unfold check_budget_alert
    rw [hb]
  · by_cases hth : (b.alert_threshold * 100 ≤ (if 0 < b.amount then
        get_spent_amount db u c (get_budget_period_dates b.period now).1
          (get_budget_period_dates b.period now).2 / b.amount * 100 else 0))
    · rcases hf : db.alerts.find? (alertMatches u (get_budget_period_dates b.period now).1
          (categoryNameOf db b.category_id)) with _ | a
      · right
        have hins : ∃ a, ((check_budget_alert db u c now).2).alerts = db.alerts ++ [a] := by
          unfold check_budget_alert
          rw [hb]
          dsimp only
          rw [if_pos hth, hf]
          exact ⟨_, rfl⟩
        obtain ⟨a, ha⟩ := hins
        exact ⟨b, a, rfl, hf, ha⟩
      · left
        unfold check_budget_alert
        rw [hb]
        dsimp only
        rw [if_pos hth, hf]
    · left
      unfold check_budget_alert
      rw [hb]
      dsimp only
      rw [if_neg hth]

/-- One call never raises the deduplication count above 1. -/
theorem countBudgetAlerts_step (db : Db) (u c : Nat) (now : PyDateTime) :
    countBudgetAlerts ((check_budget_alert db u c now).2) u c now ≤
      max 1 (countBudgetAlerts db u c now) := by
  have hsh := check_budget_alert_shape db u c now
  have hfa : findActiveBudget ((check_budget_alert db u c now).2) u c =
      findActiveBudget db u c := by
    unfold findActiveBudget
    rw [hsh.2.1]
  have hcn : ∀ cid, categoryNameOf ((check_budget_alert db u c now).2) cid =
      categoryNameOf db cid := by
    intro cid
    unfold categoryNameOf
    rw [hsh.2.2]
  unfold countBudgetAlerts
  rw [hfa]
  rcases hb : findActiveBudget db u c with _ | b
  · exact Nat.zero_le _
  · dsimp only
    rw [hcn]
    rcases check_budget_alert_alerts_cases db u c now with h | ⟨b', a, hb', hf, h⟩
    · rw [h]
      exact le_max_right 1 _
    · rw [hb] at hb'
      injection hb' with hb'
      subst hb'
      rw [h, List.countP_append]
      have h0 : db.alerts.countP (alertMatches u (get_budget_period_dates b.period now).1
          (categoryNameOf db b.category_id)) = 0 := by
        apply List.countP_eq_zero.mpr
        intro x hx
        exact List.find?_eq_none.mp hf x hx
      rw [h0]
      have h1 : List.countP (alertMatches u (get_budget_period_dates b.period now).1
          (categoryNameOf db b.category_id)) [a] ≤ 1 := by
        simpa using List.countP_le_length (l := [a])
          (p := alertMatches u (get_budget_period_dates b.period now).1
            (categoryNameOf db b.category_id))
      simpa using h1

/-- C2 (amended): for a fixed user and category, any number of
`check_budget_alert` calls within one period leaves at most one matching
alert (at most `max 1` of the initial count): a call inserts only when the
deduplication query finds nothing. -/
theorem budget_alert_once_per_period (db : Db) (u c : Nat) (now : PyDateTime)
    (n : Nat) :
    countBudgetAlerts (iterCheckBudgetAlert u c now n db) u c now ≤
      max 1 (countBudgetAlerts db u c now) := by
  induction n generalizing db with
  | zero => exact le_max_right 1 _
  | succ n ih =>
    have h1 : iterCheckBudgetAlert u c now (n + 1) db =
        iterCheckBudgetAlert u c now n ((check_budget_alert db u c now).2) := rfl
    rw [h1]
    refine le_trans (ih ((check_budget_alert db u c now).2)) ?_
    have h2 := countBudgetAlerts_step db u c now
    have h3 : max 1 (countBudgetAlerts ((check_budget_alert db u c now).2) u c now) ≤
        max 1 (max 1 (countBudgetAlerts db u c now)) :=
      max_le_max (le_refl 1) h2
    refine le_trans h3 ?_
    rw [← max_assoc, max_self]

/-- The two-category state of the C2 counterexample: user 1 has categories
"Food" (1) and "Fast Food" (2), an exceeded monthly budget on each, and no
alerts yet. -/
def dbTwoCats : Db :=
  ⟨[⟨1, 1, 100, "INR", 100, 1, "f", 1, ⟨2026, 10, 5, 0, 0, 0⟩, "expense", "manual",
     none, now2026⟩,
    ⟨2, 1, 100, "INR", 100, 1, "g", 2, ⟨2026, 10, 5, 0, 0, 0⟩, "expense", "manual",
     none, now2026⟩],
   [⟨1, "Food", 1, false⟩, ⟨2, "Fast Food", 1, false⟩],
   [⟨1, 1, 1, 100, "monthly", 1/2, true, now2026, now2026⟩,
    ⟨2, 1, 2, 100, "monthly", 1/2, true, now2026, now2026⟩],
   [], 3, 3, 3, 1⟩

/-- C2 (counterexample): after a budget check for "Food" and then one for
"Fast Food", the database holds two `budget_exceed` alerts whose titles
contain the category name "Food" and whose `created_at` lies inside the
current monthly period — the claimed per-category uniqueness fails because
deduplication matches alert titles by substring. -/
theorem budget_alert_not_unique_counterexample :
    ((check_budget_alert ((check_budget_alert dbTwoCats 1 1 now2026).2) 1 2
        now2026).2).alerts.countP (fun a =>
      alertMatches 1 (get_budget_period_dates "monthly" now2026).1 "Food" a &&
        dtLe a.created_at (get_budget_period_dates "monthly" now2026).2) = 2 ∧
    categoryNameOf dbTwoCats 1 = "Food" ∧
    (findActiveBudget dbTwoCats 1 1).isSome = true := by
  constructor
  · decide
  · exact ⟨by decide, by decide⟩

/-- C10: `ReceiptParser.extract_amount` collects every pattern match that
parses as a float within 10–100000 inclusive and returns the largest
collected amount — not the first match; it returns `None` exactly when the
collection is empty. -/
theorem receipt_extract_amount_max (text : String) :
    (extract_amount text = none ↔ receiptAmountsFound text = []) ∧
    ∀ a, extract_amount text = some a →
      a ∈ receiptAmountsFound text ∧ ∀ x ∈ receiptAmountsFound text, x ≤ a := by
  constructor
  · exact List.max?_eq_none_iff
  · intro a ha
    have ha' : (receiptAmountsFound text).max? = some a := ha
    constructor
    · exact List.max?_mem (fun a b => max_choice a b) ha'
    · intro x hx
      exact (List.max?_le_iff (fun a b c => max_le_iff) ha').1 (le_refl a) x hx

/-- Witness for C10: on a receipt text collecting 250.50 (three times) and
12, the maximum 250.50 is returned although 12 is matched later (and the
first textual match is not privileged). -/
theorem receipt_extract_amount_max_witness :
    extract_amount "TOTAL Rs 250.50 tax 12" = some (501/2) ∧
    ((501/2 : ℚ) ∈ receiptAmountsFound "TOTAL Rs 250.50 tax 12" ∧
     ∀ x ∈ receiptAmountsFound "TOTAL Rs 250.50 tax 12", x ≤ 501/2) :=
  ⟨by decide, (receipt_extract_amount_max "TOTAL Rs 250.50 tax 12").2 (501/2) (by decide)⟩

/-- The amount `parse_sms` is left with when no amount pattern matches: the
truthy currency-cascade amount, or null. -/
def currencyFallbackAmount (t : String) : Option ℚ :=
  match extractCurrencyAndAmount t with
  | some (_, amt) => if truthyAmount amt then amt else none
  | none => none

/-- C1 (counterexample): `parse_sms "$ 50"` returns the amount 50.0 even
though none of the four `patterns['amount']` regular expressions matches —
the field was set by the `extract_currency_and_amount` cascade, so a field
whose own pattern list fails does not necessarily remain null. -/
theorem sms_amount_not_null_without_pattern :
    (parseSms "$ 50").map (fun r => r.amount) = some (some 50) ∧
    smsAmountPatterns.all (fun p => (reSearch true p "$ 50".data).isNone) = true :=
  ⟨by decide, by decide⟩

/-- C1 (amended): whenever `parse_sms` returns, the merchant, card and date
fields are assigned from the first matching pattern of their lists (null
when none matches, the date also passing `_parse_date`), the type from the
keyword lists, and the amount from the first matching amount pattern — but
when no amount pattern matches, the amount falls back to the value the
currency cascade extracted (null only if that too failed or was zero). -/
theorem sms_fields_first_match (t : String) (r : SmsResult)
    (h : parseSms t = some r) :
    r.merchant = (firstGroup true smsMerchantPatterns t.data).map pyStrip ∧
    r.card_last_digits = firstGroup true smsCardPatterns t.data ∧
    r.date = (firstGroup false smsDatePatterns t.data).bind parseDateStr ∧
    r.txType = detectTxType t ∧
    (∀ g, firstGroup true smsAmountPatterns t.data = some g →
      r.amount = pyFloat (stripCommas g)) ∧
    (firstGroup true smsAmountPatterns t.data = none →
      r.amount = currencyFallbackAmount t) := by
  unfold parseSms at h
  rcases hE : extractCurrencyAndAmount t with _ | ⟨cur, amt⟩
  · rw [hE] at h
    exact Option.noConfusion h
  · rw [hE] at h
    dsimp only at h
    rcases hA : firstGroup true smsAmountPatterns t.data with _ | g
    · rw [hA] at h
      dsimp only at h
      injection h with h
      subst h
      refine ⟨rfl, rfl, rfl, rfl, ?_, ?_⟩
      · intro g hg
        exact Option.noConfusion hg
      · intro _
        unfold currencyFallbackAmount
        rw [hE]
    · rw [hA] at h
      dsimp only at h
      rcases hF : pyFloat (stripCommas g) with _ | v
      · rw [hF] at h
        exact Option.noConfusion h
      · rw [hF] at h
        dsimp only at h
        injection h with h
        subst h
        refine ⟨rfl, rfl, rfl, rfl, ?_, ?_⟩
        · intro g' hg'
          injection hg' with hg'
          subst hg'
          rw [hF]
        · intro hnone
          exact Option.noConfusion hnone

/-- The parse result of "Rs 50 debited", used by the C1 witness. -/
def smsResultRs50 : SmsResult :=
  ⟨some 50, "INR", some "debit", none, none, none, "Rs 50 debited"⟩

/-- Witness for C1 (amended) at the SMS "Rs 50 debited". -/
theorem sms_fields_first_match_witness :
    parseSms "Rs 50 debited" = some smsResultRs50 ∧
    (smsResultRs50.merchant =
        (firstGroup true smsMerchantPatterns "Rs 50 debited".data).map pyStrip ∧
     smsResultRs50.card_last_digits = firstGroup true smsCardPatterns "Rs 50 debited".data ∧
     smsResultRs50.date =
        (firstGroup false smsDatePatterns "Rs 50 debited".data).bind parseDateStr ∧
     smsResultRs50.txType = detectTxType "Rs 50 debited" ∧
     (∀ g, firstGroup true smsAmountPatterns "Rs 50 debited".data = some g →
        smsResultRs50.amount = pyFloat (stripCommas g)) ∧
     (firstGroup true smsAmountPatterns "Rs 50 debited".data = none →
        smsResultRs50.amount = currencyFallbackAmount "Rs 50 debited")) :=
  ⟨by decide, sms_fields_first_match "Rs 50 debited" smsResultRs50 (by decide)⟩

/-- An opaque stand-in for the naive-Bayes categoriser used by witnesses. -/
def predictOthers : String → String × ℚ := fun _ => ("Others", 9/10)

/-- C6: when `parse_sms` extracts no amount (null or zero), the parse-sms
endpoint raises 400 with the fixed detail string and leaves the whole
application state unchanged; when a nonzero amount is extracted, no 400 is
raised (the request completes). -/
theorem sms_endpoint_400_behaviour (st : AppState) (uid : Nat) (sms : String)
    (predict : String → String × ℚ) (now : PyDateTime) (parsed : SmsResult)
    (h : parseSms sms = some parsed) :
    (truthyAmount parsed.amount = false →
      parse_sms_transactions st uid sms predict now =
        (.error ⟨400, "Could not extract transaction amount from SMS"⟩, st)) ∧
    (truthyAmount parsed.amount = true →
      ∃ resp st', parse_sms_transactions st uid sms predict now = (.ok resp, st')) := by
  constructor
  · intro hf
    unfold parse_sms_transactions
    rw [h]
    dsimp only
    rw [hf]
    rw [if_pos (show (!false) = true from rfl)]
  · intro ht
    unfold parse_sms_transactions
    rw [h]
    dsimp only
    rw [ht]
    rw [if_neg (show ¬((!true) = true) from by decide)]
    exact ⟨_, _, rfl⟩

/-- Witness for C6: "hello" yields no amount and a 400 with the state
unchanged; "Rs 50 debited" yields an amount and completes without a 400. -/
theorem sms_endpoint_400_behaviour_witness :
    parseSms "hello" = some ⟨none, "INR", none, none, none, none, "hello"⟩ ∧
    (parse_sms_transactions stSmall 1 "hello" predictOthers now2026 =
      (.error ⟨400, "Could not extract transaction amount from SMS"⟩, stSmall)) ∧
    ∃ resp st', parse_sms_transactions stSmall 1 "Rs 50 debited" predictOthers now2026 =
      (.ok resp, st') :=
  ⟨by decide,
   (sms_endpoint_400_behaviour stSmall 1 "hello" predictOthers now2026
     ⟨none, "INR", none, none, none, none, "hello"⟩ (by decide)).1 (by decide),
   (sms_endpoint_400_behaviour stSmall 1 "Rs 50 debited" predictOthers now2026
     smsResultRs50 (by decide)).2 (by decide)⟩

/-- Category resolution reads or inserts only category rows. -/
theorem findOrCreateCategory_shape (db : Db) (u : Nat) (name : String) :
    (findOrCreateCategory db u name).2.transactions = db.transactions ∧
    (findOrCreateCategory db u name).2.budgets = db.budgets ∧
    (findOrCreateCategory db u name).2.alerts = db.alerts := by
  unfold findOrCreateCategory
  split
  · exact ⟨rfl, rfl, rfl⟩
  · split
    · exact ⟨rfl, rfl, rfl⟩
    · exact ⟨rfl, rfl, rfl⟩

/-- Appending one transaction row adds its amount to the period sum exactly
when the row satisfies the query filter. -/
theorem get_spent_amount_append (db db' : Db) (t : Transaction) (u c : Nat)
    (start stop : PyDateTime) (h : db'.transactions = db.transactions ++ [t]) :
    get_spent_amount db' u c start stop =
      get_spent_amount db u c start stop +
        (if spentPred u c start stop t then t.amount else 0) := by
  unfold get_spent_amount
  rw [h, List.filter_append, List.map_append, List.sum_append]
  congr 1
  by_cases hp : spentPred u c start stop t
  · simp [List.filter_cons, hp]
  · simp [List.filter_cons, hp]

/-- C5 (amended): when the SMS parses with a truthy amount and a debit
type, the endpoint inserts the transaction row first and only then runs the
budget check on the post-insert database; the period sum that check
compares to the threshold therefore includes the inserted amount whenever
the transaction's date lies inside the summed interval (with no date in the
SMS the date is `now`, which always does). -/
theorem sms_budget_check_after_insert (st : AppState) (uid : Nat) (sms : String)
    (predict : String → String × ℚ) (now : PyDateTime) (parsed : SmsResult)
    (h : parseSms sms = some parsed) (htru : truthyAmount parsed.amount = true)
    (hdeb : parsed.txType = some "debit") :
    ∃ (t : Transaction) (db2 : Db),
      t.user_id = uid ∧
      t.transaction_type = "expense" ∧
      t.amount = parsed.amount.getD 0 ∧
      db2.transactions = st.db.transactions ++ [t] ∧
      (parse_sms_transactions st uid sms predict now).2.db =
        (check_budget_alert db2 uid t.category_id now).2 ∧
      ∀ start stop, dtLe start t.transaction_date = true →
        dtLe t.transaction_date stop = true →
        get_spent_amount db2 uid t.category_id start stop =
          get_spent_amount st.db uid t.category_id start stop + t.amount := by
  unfold parse_sms_transactions
  rw [h]
  dsimp only
  rw [htru]
  rw [if_neg (show ¬((!true) = true) from by decide)]
  dsimp only
  have htt : (if parsed.txType = some "debit" then "expense" else "income") = "expense" := by
    rw [hdeb, if_pos rfl]
  rw [htt]
  rw [if_pos (rfl : ("expense":String) = "expense")]
  set desc := (match parsed.merchant with
    | some m => if m = "" then "Unknown Transaction" else m
    | none => "Unknown Transaction") with hdesc
  set fc := findOrCreateCategory st.db uid (predict desc).1 with hfc
  set tdate := (match parsed.date with
    | some ds => (parseYmdDate ds).getD now
    | none => now) with htd
  set conv := (if parsed.currency ≠ "INR" then
      ((convert_to_inr st.currency (parsed.amount.getD 0) parsed.currency (dtAbsSeconds now)).1,
        dictGetD (getExchangeRates
          (convert_to_inr st.currency (parsed.amount.getD 0) parsed.currency (dtAbsSeconds now)).2
          parsed.currency (dtAbsSeconds now)).1 "INR" 1,
        (getExchangeRates
          (convert_to_inr st.currency (parsed.amount.getD 0) parsed.currency (dtAbsSeconds now)).2
          parsed.currency (dtAbsSeconds now)).2)
    else (parsed.amount.getD 0, 1, st.currency)) with hconv
  have hfct : fc.2.transactions = st.db.transactions :=
    (findOrCreateCategory_shape st.db uid (predict desc).1).1
  set tR : Transaction :=
    { id := fc.2.nextTransactionId, user_id := uid, amount := parsed.amount.getD 0,
      currency := parsed.currency, amount_inr := conv.1, exchange_rate := conv.2.1,
      description := desc, category_id := fc.1.id, transaction_date := tdate,
      transaction_type := "expense", source := "bank_sms", raw_text := some sms,
      created_at := now } with htR
  set db2R : Db :=
    { transactions := fc.2.transactions ++ [tR], categories := fc.2.categories,
      budgets := fc.2.budgets, alerts := fc.2.alerts,
      nextTransactionId := fc.2.nextTransactionId + 1, nextCategoryId := fc.2.nextCategoryId,
      nextBudgetId := fc.2.nextBudgetId, nextAlertId := fc.2.nextAlertId } with hdb2R
  have hdbt : db2R.transactions = st.db.transactions ++ [tR] :=
    congrArg (fun l => l ++ [tR]) hfct
  refine ⟨tR, db2R, rfl, rfl, rfl, hdbt, rfl, ?_⟩
  intro start stop h1 h2
  rw [get_spent_amount_append st.db db2R tR uid tR.category_id start stop hdbt]
  have hsp : spentPred uid tR.category_id start stop tR = true := by
    simp [spentPred, htR, h1, h2]
  rw [hsp, if_pos rfl]

/-- A state with an "Others" category and an exceeded-on-500 monthly budget,
used for C5's concrete instances. -/
def stC5 : AppState :=
  ⟨⟨[], [⟨1, "Others", 1, true⟩],
    [⟨1, 1, 1, 100, "monthly", 4/5, true, now2026, now2026⟩], [], 1, 2, 2, 1⟩,
   initCurrencyState⟩

/-- C5 (counterexample): an SMS carrying the out-of-period date 01-01-2020
is inserted as a 500-rupee expense in the budgeted category, yet the
monthly-period sum the budget check compared stays 0 and no alert is
created — the accumulated sum did not include the amount just inserted. -/
theorem sms_budget_check_out_of_period_counterexample :
    (parse_sms_transactions stC5 1 "Rs 500 debited at Amazon on 01-01-2020"
      predictOthers now2026).2.db.alerts = [] ∧
    ((parse_sms_transactions stC5 1 "Rs 500 debited at Amazon on 01-01-2020"
      predictOthers now2026).2.db.transactions.map
        (fun t => (t.amount, t.category_id, t.transaction_type))) = [(500, 1, "expense")] ∧
    get_spent_amount (parse_sms_transactions stC5 1 "Rs 500 debited at Amazon on 01-01-2020"
        predictOthers now2026).2.db 1 1
      (get_budget_period_dates "monthly" now2026).1
      (get_budget_period_dates "monthly" now2026).2 = 0 := by
  exact ⟨by decide, by decide, by decide⟩

/-- The parse result of "Rs 500 debited at Amazon", used by the C5 witness. -/
def smsResultAmazon : SmsResult :=
  ⟨some 500, "INR", some "debit", some "Amazon", none, none, "Rs 500 debited at Amazon"⟩

/-- Witness for C5 (amended) on a dateless debit SMS. -/
theorem sms_budget_check_after_insert_witness :
    parseSms "Rs 500 debited at Amazon" = some smsResultAmazon ∧
    truthyAmount smsResultAmazon.amount = true ∧
    smsResultAmazon.txType = some "debit" ∧
    ∃ (t : Transaction) (db2 : Db),
      t.user_id = 1 ∧
      t.transaction_type = "expense" ∧
      t.amount = smsResultAmazon.amount.getD 0 ∧
      db2.transactions = stC5.db.transactions ++ [t] ∧
      (parse_sms_transactions stC5 1 "Rs 500 debited at Amazon" predictOthers
          now2026).2.db = (check_budget_alert db2 1 t.category_id now2026).2 ∧
      ∀ start stop, dtLe start t.transaction_date = true →
        dtLe t.transaction_date stop = true →
        get_spent_amount db2 1 t.category_id start stop =
          get_spent_amount stC5.db 1 t.category_id start stop + t.amount :=
  ⟨by decide, by decide, by decide,
   sms_budget_check_after_insert stC5 1 "Rs 500 debited at Amazon" predictOthers now2026
     smsResultAmazon (by decide) (by decide) (by decide)⟩
